import Mathlib

/-!
Verification of the per-scope retrieval-augmented context engine of the
projectgpt repository: the chunker, the embedding similarity and scoped
vector search of `FolderRAGService` (src/lib/folder-rag-service.ts), the
context assembler (src/lib/context-manager.ts), the folder context
orchestrator (src/lib/folder-context-manager.ts), and the knowledge-graph
builder.

The embedding is shallow: JavaScript strings are Lean `String`s, and the
JavaScript string/array methods the source uses (`split`, `trim`, `join`,
`slice`, `substring`, `lastIndexOf`) are modelled by explicit functions on
the underlying character lists with JavaScript semantics.  JavaScript
numbers are modelled as `Int`/`Nat` where the source only ever holds
integers (lengths, token counts, offsets, limits), and as `ℝ` for the
embedding vectors and similarity scores (an exact-real idealization of
IEEE doubles).  The IndexedDB store (with its `by-folder-user` index on
`[folderId, userId]`) is modelled as lists of records; `getAllFromIndex`
with that index is a filter on the two scope fields.
-/

namespace ProjectGPT

/-! ## JavaScript string primitives -/

/-- JavaScript `String.prototype.trim`: strip leading and trailing
whitespace from a character list. -/
def jsTrimList (l : List Char) : List Char :=
  ((l.dropWhile Char.isWhitespace).reverse.dropWhile Char.isWhitespace).reverse

/-- JavaScript `s.trim()`. -/
def jsTrim (s : String) : String := ⟨jsTrimList s.data⟩

/-- Length of a JavaScript string (number of characters). -/
def jsLen (s : String) : Nat := s.data.length

/-- Split a character list at every character satisfying `p`, keeping empty
pieces (JavaScript `split` on a single-character class). -/
def splitChars (p : Char → Bool) : List Char → List (List Char)
  | [] => [[]]
  | c :: cs =>
    let r := splitChars p cs
    if p c then [] :: r
    else
      match r with
      | g :: gs => (c :: g) :: gs
      | [] => [[c]]

/-- JavaScript `s.split(<class>)` for a single-character class. -/
def jsSplit (s : String) (p : Char → Bool) : List String :=
  (splitChars p s.data).map (fun l => ⟨l⟩)

/-- JavaScript `arr.join(sep)`. -/
def jsJoin (sep : String) : List String → String
  | [] => ""
  | [s] => s
  | s :: rest => s ++ sep ++ jsJoin sep rest

/-- JavaScript `s.substring(0, n)` for a nonnegative clamp `n` (negative
arguments are clamped to 0 by `Int.toNat` at call sites). -/
def jsTake (s : String) (n : Nat) : String := ⟨s.data.take n⟩

/-- JavaScript `s.lastIndexOf(" ")`: index of the last space, `-1` if none. -/
def jsLastIndexOfSpace (s : String) : Int :=
  let rec go : List Char → Nat → Int → Int
    | [], _, acc => acc
    | c :: cs, i, acc => go cs (i + 1) (if c = ' ' then (i : Int) else acc)
  go s.data 0 (-1)

/-- JavaScript `arr.slice(0, e)`: a negative end index counts from the end
of the array, and the result is clamped to the array bounds. -/
def jsSlice0 {α : Type} (l : List α) (e : Int) : List α :=
  l.take (if e < 0 then ((l.length : Int) + e).toNat else e.toNat)

end ProjectGPT

namespace ProjectGPT.FolderRAG

/-! ## FolderRAGService (src/lib/folder-rag-service.ts): data model -/

/-- `FolderDocument` (the fields the RAG pipeline reads; free-form
`metadata`, timestamps and the document `type`/`size` are payload the
verified code never branches on). -/
structure FolderDocument where
  id : String
  folderId : Int
  userId : String
  name : String
  content : String
deriving DecidableEq, Repr

/-- `FolderChunk` (metadata is flattened to the `documentName` field that
`buildContextForQuery` reads; `createdAt` is dropped). -/
structure FolderChunk where
  id : String
  documentId : String
  folderId : Int
  userId : String
  content : String
  startOffset : Int
  endOffset : Int
  chunkIndex : Nat
  tokenCount : Nat
  documentName : String
deriving DecidableEq, Repr

/-- `CHUNK_CONFIG` from folder-rag-service.ts. -/
structure ChunkConfig where
  maxTokens : Nat
  overlap : Nat
  minChunkSize : Nat
deriving DecidableEq, Repr

def CHUNK_CONFIG : ChunkConfig := { maxTokens := 512, overlap := 50, minChunkSize := 100 }

/-- `estimateTokens`: `Math.ceil(text.length / 4)`. -/
def estimateTokens (text : String) : Nat := (jsLen text + 3) / 4

/-- A sentence terminator of the class `[.!?]`. -/
def isTerminal (c : Char) : Bool := c = '.' || c = '!' || c = '?'

/-- `splitIntoSentences`: `text.split(/[.!?]+/).filter(s => s.trim().length > 0)`.
Splitting at every terminal character produces the regex split plus extra
empty pieces between consecutive terminators; the trim-nonempty filter
removes exactly those empty pieces, so the composition agrees with the
source. -/
def splitIntoSentences (text : String) : List String :=
  (jsSplit text isTerminal).filter (fun s => jsLen (jsTrim s) > 0)

/-- Build one `FolderChunk` as the chunk-emission sites of `chunkDocument`
do.  `idGen` models `crypto.randomUUID()` (an opaque fresh-id supply,
indexed by the chunk number). -/
def mkChunk (idGen : Nat → String) (document : FolderDocument)
    (currentChunk : String) (startOffset : Int) (chunkIndex : Nat) : FolderChunk :=
  { id := idGen chunkIndex
    documentId := document.id
    folderId := document.folderId
    userId := document.userId
    content := jsTrim currentChunk
    startOffset := startOffset
    endOffset := startOffset + (jsLen currentChunk : Int)
    chunkIndex := chunkIndex
    tokenCount := estimateTokens currentChunk
    documentName := document.name }

/-- Loop state of `chunkDocument`. -/
structure ChunkAcc where
  currentChunk : String
  chunkIndex : Nat
  startOffset : Int
  chunks : List FolderChunk
deriving Repr

/-- The `for (const sentence of sentences)` loop of `chunkDocument`.  Note
that the overlap seed is `sentences.slice(-CHUNK_CONFIG.overlap)` — a slice
of the WHOLE document's sentence array (the source's behaviour), not of the
sentences of the chunk just emitted. -/
def chunkLoop (idGen : Nat → String) (document : FolderDocument)
    (sentences : List String) : List String → ChunkAcc → ChunkAcc
  | [], acc => acc
  | sentence :: rest, acc =>
    let potentialChunk :=
      acc.currentChunk ++ (if acc.currentChunk ≠ "" then " " else "") ++ sentence
    if estimateTokens potentialChunk > CHUNK_CONFIG.maxTokens ∧ acc.currentChunk ≠ "" then
      let chunk := mkChunk idGen document acc.currentChunk acc.startOffset acc.chunkIndex
      let overlapSentences := sentences.drop (sentences.length - CHUNK_CONFIG.overlap)
      let joined := jsJoin " " overlapSentences
      chunkLoop idGen document sentences rest
        { currentChunk := joined ++ " " ++ sentence
          chunkIndex := acc.chunkIndex + 1
          startOffset := chunk.endOffset - (jsLen joined : Int)
          chunks := acc.chunks ++ [chunk] }
    else
      chunkLoop idGen document sentences rest { acc with currentChunk := potentialChunk }

/-- `chunkDocument` from folder-rag-service.ts. -/
def chunkDocument (idGen : Nat → String) (document : FolderDocument) : List FolderChunk :=
  let sentences := splitIntoSentences document.content
  let acc := chunkLoop idGen document sentences sentences
    { currentChunk := "", chunkIndex := 0, startOffset := 0, chunks := [] }
  if jsTrim acc.currentChunk ≠ "" ∧ estimateTokens acc.currentChunk ≥ CHUNK_CONFIG.minChunkSize then
    acc.chunks ++ [mkChunk idGen document acc.currentChunk acc.startOffset acc.chunkIndex]
  else
    acc.chunks

end ProjectGPT.FolderRAG

namespace ProjectGPT.ContextManager

/-! ## Context assembler (src/lib/context-manager.ts) -/

/-- Message roles of `OpenRouterMessage`. -/
inductive Role where
  | system
  | user
  | assistant
deriving DecidableEq, Repr

/-- `OpenRouterMessage`: role plus content. -/
structure OpenRouterMessage where
  role : Role
  content : String
deriving DecidableEq, Repr

/-- `MessageContext` returned by `buildContext`. -/
structure MessageContext where
  messages : List OpenRouterMessage
  totalTokens : Int
  truncated : Bool
deriving DecidableEq, Repr

/-- `TokenLimits`.  `buildContext` receives a `Partial<TokenLimits>` and
merges it over `DEFAULT_LIMITS`; the model takes the merged record. -/
structure TokenLimits where
  maxTokens : Int
  maxMessages : Int
  reserveTokens : Int
deriving DecidableEq, Repr

def DEFAULT_LIMITS : TokenLimits := { maxTokens := 8000, maxMessages := 20, reserveTokens := 1500 }

/-- `estimateTokens` from context-manager.ts: `Math.ceil(text.length / 4)`. -/
def estimateTokens (text : String) : Nat := (jsLen text + 3) / 4

/-- `estimateMessageTokens`: content estimate plus 10 for role/formatting. -/
def estimateMessageTokens (message : OpenRouterMessage) : Int :=
  (estimateTokens message.content : Int) + 10

/-- `truncateText` from context-manager.ts.  `maxChars * 0.8` is exact in
rationals, so `lastSpace > maxChars * 0.8` is modelled as
`5 * lastSpace > 4 * maxChars` (the float rounding of `0.8 * maxChars` is
not modelled); `substring` clamps a negative bound to 0 via `Int.toNat`. -/
def truncateText (text : String) (maxTokens : Int) : String :=
  let maxChars : Int := maxTokens * 4
  if (jsLen text : Int) ≤ maxChars then text
  else
    let truncStr := jsTake text maxChars.toNat
    let lastSpace : Int := jsLastIndexOfSpace truncStr
    if 5 * lastSpace > 4 * maxChars then jsTake truncStr lastSpace.toNat ++ "..."
    else truncStr ++ "..."

/-- The backward pair walk of `buildContext` (its `for` loop from index 1 of
the reversed history, stepping by 2): takes the reversed history minus its
most recent entry, the running selected-message count and token count, and
returns the messages it prepends (in the chronological order the `unshift`
calls produce), the final token count, and whether the walk set the
`truncated` flag by rejecting a pair. -/
def pairWalk (availableTokens : Int) (maxMessages : Int) :
    List OpenRouterMessage → Int → Int → List OpenRouterMessage × Int × Bool
  | assistantMessage :: userMessage :: rest, selCount, usedTokens =>
    let pairTokens := estimateMessageTokens assistantMessage + estimateMessageTokens userMessage
    if usedTokens + pairTokens ≤ availableTokens ∧ selCount + 2 ≤ maxMessages then
      let r := pairWalk availableTokens maxMessages rest (selCount + 2) (usedTokens + pairTokens)
      (r.1 ++ [userMessage, assistantMessage], r.2.1, r.2.2)
    else
      ([], usedTokens, true)
  | _, _, usedTokens => ([], usedTokens, false)

/-- `buildContext` from context-manager.ts. -/
def buildContext (messages : List OpenRouterMessage) (systemPrompt : String)
    (limits : TokenLimits) : MessageContext :=
  let systemMessage : OpenRouterMessage := { role := Role.system, content := systemPrompt }
  let systemTokens := estimateMessageTokens systemMessage
  let availableTokens := limits.maxTokens - limits.reserveTokens - systemTokens
  if messages.length = 0 then
    { messages := [systemMessage], totalTokens := systemTokens, truncated := false }
  else
    let reversedMessages := messages.reverse
    let start : List OpenRouterMessage × Int × Bool :=
      match reversedMessages.head? with
      | some latestMessage =>
        if latestMessage.role = Role.user then
          if estimateMessageTokens latestMessage ≤ availableTokens then
            ([latestMessage], estimateMessageTokens latestMessage, false)
          else
            let truncatedContent := truncateText latestMessage.content (availableTokens - 10)
            ([{ latestMessage with content := truncatedContent }],
              (estimateTokens truncatedContent : Int) + 10, true)
        else ([], 0, false)
      | none => ([], 0, false)
    let walk := pairWalk availableTokens limits.maxMessages (reversedMessages.drop 1)
      (start.1.length : Int) start.2.1
    { messages := systemMessage :: (walk.1 ++ start.1)
      totalTokens := systemTokens + walk.2.1
      truncated := start.2.2 || walk.2.2 }

end ProjectGPT.ContextManager

namespace ProjectGPT.FolderRAG

/-! ## Embeddings, cosine similarity and scoped search -/

/-- `FolderEmbedding` (vector entries are the real idealization of JS
doubles; `dimensions`, `model` and `createdAt` are payload). -/
structure FolderEmbedding where
  id : String
  folderId : Int
  userId : String
  vector : List ℝ

/-- Node types of `KnowledgeNode`. -/
inductive NodeType where
  | concept
  | entity
  | document
  | topic
deriving DecidableEq, Repr

/-- Edge types of `KnowledgeEdge`. -/
inductive EdgeType where
  | relates_to
  | contains
  | references
  | derived_from
deriving DecidableEq, Repr

/-- `KnowledgeNode` (the random mind-map `position` and free-form
`metadata` are dropped: no verified code branches on them). -/
structure KnowledgeNode where
  id : String
  type : NodeType
  label : String
  content : String
  documentIds : List String
  chunkIds : List String
deriving DecidableEq, Repr

/-- `KnowledgeEdge`; the weight (0.8 in the source) is exact in ℚ. -/
structure KnowledgeEdge where
  id : String
  sourceId : String
  targetId : String
  type : EdgeType
  weight : ℚ
deriving DecidableEq, Repr

/-- `FolderKnowledgeGraph` (metadata/timestamps dropped). -/
structure FolderKnowledgeGraph where
  id : String
  folderId : Int
  userId : String
  nodes : List KnowledgeNode
  edges : List KnowledgeEdge
deriving DecidableEq, Repr

/-- The scoped store backing `FolderRAGService` (IndexedDB object stores,
or the in-memory fallback of identical shape). -/
structure StoreState where
  chunks : List FolderChunk
  embeddings : List FolderEmbedding
  graphs : List FolderKnowledgeGraph

/-- `getChunks(folderId, userId)`:
`db.getAllFromIndex('folderChunks', 'by-folder-user', [folderId, userId])` —
the index keyPath is `['folderId', 'userId']`, so this is the records whose
scope fields match. -/
def getChunks (state : StoreState) (folderId : Int) (userId : String) : List FolderChunk :=
  state.chunks.filter (fun c => c.folderId = folderId ∧ c.userId = userId)

/-- `getEmbeddings(folderId, userId)`, same index on `folderEmbeddings`. -/
def getEmbeddings (state : StoreState) (folderId : Int) (userId : String) : List FolderEmbedding :=
  state.embeddings.filter (fun e => e.folderId = folderId ∧ e.userId = userId)

/-- The dot product `a.reduce((sum, val, i) => sum + val * b[i], 0)` for
equal-length vectors (the only way the source calls it). -/
noncomputable def dotProduct (a b : List ℝ) : ℝ := (List.zipWith (· * ·) a b).sum

/-- `Math.sqrt(v.reduce((sum, val) => sum + val * val, 0))`. -/
noncomputable def magnitude (a : List ℝ) : ℝ := Real.sqrt ((a.map (fun v => v * v)).sum)

/-- `cosineSimilarity` from folder-rag-service.ts. -/
noncomputable def cosineSimilarity (a b : List ℝ) : ℝ :=
  dotProduct a b / (magnitude a * magnitude b)

/-- `searchSimilarContent(folderId, userId, query, limit)`.  The query
embedding is passed in directly: the source computes it by
`generateEmbedding(query)`, a random stub, so the deterministic search is a
function of the query vector.  The JS stable `sort((a, b) =>
b.similarity - a.similarity)` (descending by similarity) is modelled by
stable insertion sort under `y.similarity ≤ x.similarity`. -/
noncomputable def searchSimilarContent (state : StoreState) (folderId : Int) (userId : String)
    (queryEmbedding : List ℝ) (limit : Int) : List (FolderChunk × ℝ) :=
  let embeddings := getEmbeddings state folderId userId
  let chunks := getChunks state folderId userId
  let similarities := embeddings.map (fun e => (e.id, cosineSimilarity queryEmbedding e.vector))
  let sorted := similarities.insertionSort (fun x y => y.2 ≤ x.2)
  let topResults := jsSlice0 sorted limit
  topResults.filterMap (fun r => (chunks.find? (fun c => c.id = r.1)).map (fun c => (c, r.2)))

/-- The context block `buildContextForQuery` appends per included chunk. -/
def chunkBlock (c : FolderChunk) : String :=
  "\n--- " ++ c.documentName ++ " ---\n" ++ c.content ++ "\n"

/-- The accumulation loop of `buildContextForQuery`: walk the ranked
results; `break` as soon as the next chunk's `tokenCount` would push the
running total past `maxTokens`; append a chunk's block (and charge its
tokens) only when `similarity > 0.7` (a hard-coded constant in the
source). -/
noncomputable def ragLoop (maxTokens : Int) : List (FolderChunk × ℝ) → Int → String
  | [], _ => ""
  | result :: rest, totalTokens =>
    if maxTokens < totalTokens + (result.1.tokenCount : Int) then ""
    else if (7 : ℝ) / 10 < result.2 then
      chunkBlock result.1 ++ ragLoop maxTokens rest (totalTokens + (result.1.tokenCount : Int))
    else ragLoop maxTokens rest totalTokens

/-- Specification-side mirror of `ragLoop` that records which ranked pairs
are included (proved equivalent in `ragLoop_eq_join_ragSelect`). -/
noncomputable def ragSelect (maxTokens : Int) : List (FolderChunk × ℝ) → Int → List (FolderChunk × ℝ)
  | [], _ => []
  | result :: rest, totalTokens =>
    if maxTokens < totalTokens + (result.1.tokenCount : Int) then []
    else if (7 : ℝ) / 10 < result.2 then
      result :: ragSelect maxTokens rest (totalTokens + (result.1.tokenCount : Int))
    else ragSelect maxTokens rest totalTokens

/-- Concatenation of a list of strings (`context +=` accumulation). -/
def joinAll : List String → String
  | [] => ""
  | s :: rest => s ++ joinAll rest

/-- `buildContextForQuery(folderId, userId, query, maxTokens)`: rank with
`searchSimilarContent(..., 10)`, accumulate blocks, and `trim` the result. -/
noncomputable def buildContextForQuery (state : StoreState) (folderId : Int) (userId : String)
    (queryEmbedding : List ℝ) (maxTokens : Int) : String :=
  jsTrim (ragLoop maxTokens (searchSimilarContent state folderId userId queryEmbedding 10) 0)

end ProjectGPT.FolderRAG

namespace ProjectGPT.FolderRAG

/-! ## Knowledge graph builder -/

/-- JavaScript `s.toLowerCase()` (per character). -/
def jsToLower (s : String) : String := ⟨s.data.map Char.toLower⟩

/-- A JS word character, the complement of `\W` = `[^A-Za-z0-9_]`. -/
def isWordChar (c : Char) : Bool := c.isAlpha || c.isDigit || c = '_'

/-- The stop-word list of `extractConcepts` (with the source's duplicate
entry kept). -/
def stopWords : List String :=
  ["the", "and", "this", "that", "with", "have", "will", "from", "they", "been", "have", "their"]

/-- First-occurrence deduplication, the order `[...new Set(xs)]` keeps. -/
def jsDedupAux (seen : List String) : List String → List String
  | [] => []
  | x :: xs => if seen.contains x then jsDedupAux seen xs else x :: jsDedupAux (x :: seen) xs

def jsDedup (l : List String) : List String := jsDedupAux [] l

/-- `extractConcepts`: lower-case, split on `/\W+/`, keep words longer than
4 characters that are not stop words, deduplicate, take the first 5.  (As
with `splitIntoSentences`, splitting at every non-word character differs
from the `\W+` regex split only by empty pieces, which the length filter
removes.) -/
def extractConcepts (text : String) : List String :=
  let words := jsSplit (jsToLower text) (fun c => !isWordChar c)
  let concepts := words.filter (fun word => jsLen word > 4 && !stopWords.contains word)
  (jsDedup concepts).take 5

/-- The concept nodes `updateKnowledgeGraph` pushes for one chunk. -/
def conceptNodesFor (document : FolderDocument) (chunk : FolderChunk) : List KnowledgeNode :=
  (extractConcepts chunk.content).map (fun concept =>
    { id := chunk.id ++ "-concept-" ++ concept
      type := NodeType.concept
      label := concept
      content := concept
      documentIds := [document.id]
      chunkIds := [chunk.id] })

/-- `db.put('folderKnowledgeGraphs', graph)`: replace the record with the
same primary key (`id`), or add the record if the key is absent. -/
def putGraph : List FolderKnowledgeGraph → FolderKnowledgeGraph → List FolderKnowledgeGraph
  | [], g => [g]
  | h :: t, g => if h.id = g.id then g :: t else h :: putGraph t g

/-- `storeKnowledgeGraph` (both the IndexedDB `put` path and the in-memory
`memoryStore.set` path replace the scope's stored graph). -/
def storeKnowledgeGraph (state : StoreState) (graph : FolderKnowledgeGraph) : StoreState :=
  { state with graphs := putGraph state.graphs graph }

/-- `updateKnowledgeGraph(document, chunks)`: build one document node, up
to 5 concept nodes per chunk with a `contains` edge each, and store the
resulting graph under the fixed id `folderId + "-graph"`. -/
def updateKnowledgeGraph (state : StoreState) (document : FolderDocument)
    (chunks : List FolderChunk) : StoreState :=
  let documentNode : KnowledgeNode :=
    { id := document.id
      type := NodeType.document
      label := document.name
      content := jsTake document.content 200 ++ "..."
      documentIds := [document.id]
      chunkIds := chunks.map (fun c => c.id) }
  let conceptNodes := (chunks.map (fun chunk => conceptNodesFor document chunk)).flatten
  let edges := conceptNodes.map (fun conceptNode =>
    ({ id := document.id ++ "-contains-" ++ conceptNode.id
       sourceId := document.id
       targetId := conceptNode.id
       type := EdgeType.contains
       weight := (4 : ℚ) / 5 } : KnowledgeEdge))
  storeKnowledgeGraph state
    { id := toString document.folderId ++ "-graph"
      folderId := document.folderId
      userId := document.userId
      nodes := documentNode :: conceptNodes
      edges := edges }

/-- `getKnowledgeGraph(folderId, userId)`: first record of the scope's
`by-folder-user` index, or `null`. -/
def getKnowledgeGraph (state : StoreState) (folderId : Int) (userId : String) :
    Option FolderKnowledgeGraph :=
  (state.graphs.filter (fun g => g.folderId = folderId ∧ g.userId = userId)).head?

end ProjectGPT.FolderRAG

namespace ProjectGPT.FolderContext

open ProjectGPT.FolderRAG ProjectGPT.ContextManager

/-! ## Folder context orchestrator (src/lib/folder-context-manager.ts) -/

/-- `FolderContextConfig`. -/
structure FolderContextConfig where
  includeRAGData : Bool
  maxRAGTokens : Int
  ragSimilarityThreshold : ℝ
  preserveConversationContext : Bool
  maxConversationTokens : Int

noncomputable def DEFAULT_FOLDER_CONFIG : FolderContextConfig :=
  { includeRAGData := true
    maxRAGTokens := 2000
    ragSimilarityThreshold := (7 : ℝ) / 10
    preserveConversationContext := true
    maxConversationTokens := 4000 }

/-- The `folderConfigs : Map<number, FolderContextConfig>` of
`FolderContextManager`, as an association list. -/
def FolderConfigs := List (Int × FolderContextConfig)

/-- `getFolderConfig(folderId)`: the stored config or the default. -/
noncomputable def getFolderConfig (configs : FolderConfigs) (folderId : Int) : FolderContextConfig :=
  ((configs.find? (fun p => p.1 = folderId)).map (fun p => p.2)).getD DEFAULT_FOLDER_CONFIG

/-- `buildRAGContext(folderId, userId, query, maxTokens, similarityThreshold)`.
It receives the folder's configured `similarityThreshold` but passes only
`maxTokens` to `folderRAGService.buildContextForQuery`; the threshold
parameter is unused in the source. -/
noncomputable def buildRAGContext (state : StoreState) (folderId : Int) (userId : String)
    (queryEmbedding : List ℝ) (maxTokens : Int) (similarityThreshold : ℝ) : String :=
  let ragContent := buildContextForQuery state folderId userId queryEmbedding maxTokens
  if ragContent = "" then ""
  else
    "\n--- FOLDER CONTEXT (Folder ID: " ++ toString folderId ++ ") ---\n"
      ++ ragContent ++ "\n--- END FOLDER CONTEXT ---\n"

/-- `buildFolderSystemPrompt(basePrompt, folderId, ragContext)`. -/
def buildFolderSystemPrompt (basePrompt : String) (folderId : Int) (ragContext : String) : String :=
  let p1 := basePrompt
    ++ "\n\n## FOLDER CONTEXT ISOLATION\n"
    ++ "You are working within a specific folder context (ID: " ++ toString folderId ++ "). "
    ++ "IMPORTANT: Only use information from the provided folder context below. "
    ++ "Do not reference or contaminate this conversation with information from other folders or external sources."
  let p2 :=
    if jsTrim ragContext ≠ "" then
      p1 ++ "\n\n## AVAILABLE FOLDER RESOURCES\n"
        ++ "The following resources are available in this folder for reference:"
        ++ ragContext
        ++ "\n\nWhen answering questions, prioritize information from these folder resources. "
        ++ "If the answer isn't in the provided resources, clearly state that the information "
        ++ "is not available in the current folder context."
    else
      p1 ++ "\n\nNo specific resources are available in this folder context. "
        ++ "Provide general assistance while noting that no folder-specific resources are loaded."
  p2 ++ "\n\n## STRICT ISOLATION REQUIREMENT\n"
    ++ "Maintain complete separation between this folder's context and any other conversations. "
    ++ "Each folder is an independent knowledge space with no cross-contamination."

/-- `applyFolderLimits(baseLimits, config)`: reserve extra tokens for RAG
content when it is enabled. -/
def applyFolderLimits (baseLimits : TokenLimits) (config : FolderContextConfig) : TokenLimits :=
  { baseLimits with
    reserveTokens := baseLimits.reserveTokens
      + (if config.includeRAGData then config.maxRAGTokens else 0) }

/-- `buildFolderContext(folderId, userId, messages, userQuery, baseSystemPrompt, limits)`. -/
noncomputable def buildFolderContext (state : StoreState) (configs : FolderConfigs)
    (folderId : Int) (userId : String) (messages : List OpenRouterMessage)
    (queryEmbedding : List ℝ) (baseSystemPrompt : String) (limits : TokenLimits) :
    MessageContext :=
  let config := getFolderConfig configs folderId
  let ragContext :=
    if config.includeRAGData then
      buildRAGContext state folderId userId queryEmbedding config.maxRAGTokens
        config.ragSimilarityThreshold
    else ""
  let enhancedSystemPrompt := buildFolderSystemPrompt baseSystemPrompt folderId ragContext
  let folderLimits := applyFolderLimits limits config
  buildContext messages enhancedSystemPrompt folderLimits

end ProjectGPT.FolderContext

namespace ProjectGPT.FolderRAG

/-- Counterexample scope for C8: two chunks with embeddings in scope
(folder 1, user "u"). -/
def c8chunkA : FolderChunk :=
  { id := "c1", documentId := "d", folderId := 1, userId := "u", content := "alpha"
    startOffset := 0, endOffset := 5, chunkIndex := 0, tokenCount := 2, documentName := "doc" }

def c8chunkB : FolderChunk :=
  { id := "c2", documentId := "d", folderId := 1, userId := "u", content := "beta"
    startOffset := 5, endOffset := 9, chunkIndex := 1, tokenCount := 1, documentName := "doc" }

def c8state : StoreState :=
  { chunks := [c8chunkA, c8chunkB]
    embeddings := [{ id := "c1", folderId := 1, userId := "u", vector := [1, 0] },
                   { id := "c2", folderId := 1, userId := "u", vector := [0, 1] }]
    graphs := [] }

end ProjectGPT.FolderRAG

namespace ProjectGPT.ContextManager

def c4msg : OpenRouterMessage := { role := Role.user, content := ⟨List.replicate 200 'a'⟩ }

def c4limits : TokenLimits := { maxTokens := 50, maxMessages := 20, reserveTokens := 0 }

end ProjectGPT.ContextManager

namespace ProjectGPT.FolderContext

open ProjectGPT.FolderRAG

/-- Counterexample scope for C6: one stored chunk whose embedding has
cosine similarity 0.8 against the query vector. -/
def c6chunk : FolderChunk :=
  { id := "c1", documentId := "d", folderId := 1, userId := "u", content := "hello"
    startOffset := 0, endOffset := 5, chunkIndex := 0, tokenCount := 1, documentName := "doc" }

noncomputable def c6state : StoreState :=
  { chunks := [c6chunk]
    embeddings := [{ id := "c1", folderId := 1, userId := "u", vector := [(4 : ℝ)/5, 3/5] }]
    graphs := [] }

/-- Folder 1 configured with `ragSimilarityThreshold = 0.9`. -/
noncomputable def c6configs : FolderConfigs :=
  [((1 : Int),
    { includeRAGData := true, maxRAGTokens := 2000, ragSimilarityThreshold := (9 : ℝ)/10
      preserveConversationContext := true, maxConversationTokens := 4000 })]

end ProjectGPT.FolderContext

namespace ProjectGPT.FolderRAG

def c7docA : FolderDocument :=
  { id := "A", folderId := 1, userId := "u", name := "DocA", content := "alpha" }

def c7docB : FolderDocument :=
  { id := "B", folderId := 1, userId := "u", name := "DocB", content := "beta" }

def c7state0 : StoreState := { chunks := [], embeddings := [], graphs := [] }

def c3doc : FolderDocument :=
  { id := "E", folderId := 1, userId := "u", name := "e", content := "Hi there. Bye." }

def c3witnessContent : String := ⟨List.replicate 400 'a'⟩

def c3witnessDoc : FolderDocument :=
  { id := "W", folderId := 1, userId := "u", name := "w", content := c3witnessContent }

def bugA : String := ⟨List.replicate 1025 'a'⟩

def bugB : String := ⟨List.replicate 1025 'b'⟩

/-- The C2 failing input: two sentences of 1025 characters each, so the
second sentence triggers a chunk emission (2051 chars ≈ 513 tokens > 512). -/
def bugDoc : FolderDocument :=
  { id := "D", folderId := 1, userId := "u", name := "doc", content := bugA ++ "." ++ bugB }

end ProjectGPT.FolderRAG

namespace ProjectGPT.FolderRAG

/-! ## Claims about cosine similarity and scoped search -/

theorem zipWith_mul_self (a : List ℝ) :
    List.zipWith (fun x y => x * y) a a = a.map (fun v => v * v) := by
  induction a with
  | nil => rfl
  | cons x xs ih => simp [ih]

/-- Claim C9: the similarity function is symmetric — for equal-length
vectors `a` and `b`, `cosineSimilarity a b = cosineSimilarity b a` — and
for a normalized (sum of squares 1, hence non-zero) vector `a`,
`cosineSimilarity a a = 1` (exactly 1 in the real idealization, hence
"≈ 1"). -/
theorem C9_cosine_symm_self_one (a b : List ℝ) :
    (a.length = b.length → cosineSimilarity a b = cosineSimilarity b a) ∧
    ((a.map (fun v => v * v)).sum = 1 → cosineSimilarity a a = 1) := by
  constructor
  · intro _
    unfold cosineSimilarity dotProduct
    rw [List.zipWith_comm_of_comm _ mul_comm a b, mul_comm (magnitude a) (magnitude b)]
  · intro h
    unfold cosineSimilarity dotProduct magnitude
    rw [zipWith_mul_self, h, Real.sqrt_one]
    norm_num

/-- Witness for C9 at the concrete vectors `[1, 0]` and `[0, 1]`. -/
theorem C9_cosine_symm_self_one_witness :
    (([1, 0] : List ℝ).length = ([0, 1] : List ℝ).length ∧
      (([1, 0] : List ℝ).map (fun v => v * v)).sum = 1) ∧
    (cosineSimilarity [1, 0] [0, 1] = cosineSimilarity [0, 1] [1, 0] ∧
      cosineSimilarity [1, 0] [1, 0] = 1) := by
  refine ⟨⟨rfl, by norm_num⟩,
    (C9_cosine_symm_self_one [1, 0] [0, 1]).1 rfl,
    (C9_cosine_symm_self_one [1, 0] [1, 0]).2 (by norm_num)⟩

/-- Claim C1: every (chunk, similarity) pair returned by
`searchSimilarContent` has the requested `folderId` and `userId`; no chunk
stored under another scope ever appears in the result. -/
theorem C1_search_scope_isolation (state : StoreState) (folderId : Int) (userId : String)
    (queryEmbedding : List ℝ) (limit : Int) :
    ((searchSimilarContent state folderId userId queryEmbedding limit).all
      (fun p => p.1.folderId == folderId && p.1.userId == userId)) = true := by
  rw [List.all_eq_true]
  intro p hp
  unfold searchSimilarContent at hp
  simp only [List.mem_filterMap, Option.map_eq_some'] at hp
  obtain ⟨r, _, c, hfind, hpc⟩ := hp
  have hc := List.mem_of_find?_eq_some hfind
  unfold getChunks at hc
  rw [List.mem_filter] at hc
  have hcond := of_decide_eq_true hc.2
  subst hpc
  simp [hcond.1, hcond.2]

/-- Counterexample for C8: with two embeddings in scope, `limit = -1`
(which is `≤ 0`) does NOT return the empty list — JavaScript
`slice(0, -1)` keeps all but the last ranked entry. -/
theorem C8_counterexample :
    searchSimilarContent c8state 1 "u" [1, 0] (-1) ≠ [] := by
  have h1 : cosineSimilarity [1, 0] [1, 0] = 1 := by
    unfold cosineSimilarity dotProduct magnitude
    norm_num
  have h0 : cosineSimilarity [1, 0] [0, 1] = 0 := by
    unfold cosineSimilarity dotProduct magnitude
    norm_num
  unfold searchSimilarContent getEmbeddings getChunks c8state
  simp only [List.filter, List.map, h1, h0]
  norm_num [List.insertionSort, List.orderedInsert, jsSlice0, List.find?, c8chunkA, c8chunkB]
  simp

/-- Claim C8 amended: `limit = 0` (rather than every `limit ≤ 0`) yields an
empty result, and a scope with no stored embeddings yields an empty result
for every limit.  (For negative limits JavaScript `slice(0, limit)` counts
from the end of the ranked array, so the result can be non-empty.) -/
theorem C8_empty_limit_or_scope (state : StoreState) (folderId : Int) (userId : String)
    (queryEmbedding : List ℝ) (limit : Int)
    (h : limit = 0 ∨ getEmbeddings state folderId userId = []) :
    searchSimilarContent state folderId userId queryEmbedding limit = [] := by
  unfold searchSimilarContent
  rcases h with h | h
  · subst h
    simp [jsSlice0]
  · rw [h]
    simp [jsSlice0]

/-- Witness for the amended C8 at concrete inputs: the empty scope, and
limit 0 on a non-empty scope. -/
theorem C8_empty_limit_or_scope_witness :
    (getEmbeddings { chunks := [], embeddings := [], graphs := [] } 1 "u" = [] ∧
      searchSimilarContent { chunks := [], embeddings := [], graphs := [] } 1 "u" [1] 5 = []) ∧
    ((0 : Int) = 0 ∧ searchSimilarContent c8state 1 "u" [1, 0] 0 = []) :=
  ⟨⟨rfl, C8_empty_limit_or_scope _ 1 "u" [1] 5 (Or.inr rfl)⟩,
    ⟨rfl, C8_empty_limit_or_scope c8state 1 "u" [1, 0] 0 (Or.inl rfl)⟩⟩

end ProjectGPT.FolderRAG

namespace ProjectGPT.ContextManager

/-! ## Claims about the context assembler -/

/-- The pair walk only selects messages from the reversed tail it is given
(in chronological order). -/
theorem pairWalk_sublist (a mm : Int) :
    ∀ (l : List OpenRouterMessage) (c u : Int), (pairWalk a mm l c u).1.Sublist l.reverse
  | [], _, _ => by simp [pairWalk]
  | [_], _, _ => by simp [pairWalk]
  | x :: y :: rest, c, u => by
    rw [pairWalk]
    by_cases hc : u + (estimateMessageTokens x + estimateMessageTokens y) ≤ a ∧ c + 2 ≤ mm
    · rw [if_pos hc]
      have ih := pairWalk_sublist a mm rest (c + 2)
        (u + (estimateMessageTokens x + estimateMessageTokens y))
      have : (x :: y :: rest).reverse = rest.reverse ++ [y, x] := by
        simp
      rw [this]
      exact ih.append (List.Sublist.refl [y, x])
    · rw [if_neg hc]
      simp

/-- The pair walk respects `maxMessages` relative to its running count. -/
theorem pairWalk_length (a mm : Int) :
    ∀ (l : List OpenRouterMessage) (c u : Int),
      ((pairWalk a mm l c u).1.length : Int) + c ≤ max mm c
  | [], _, _ => by simp [pairWalk]
  | [_], _, _ => by simp [pairWalk]
  | x :: y :: rest, c, u => by
    rw [pairWalk]
    by_cases hc : u + (estimateMessageTokens x + estimateMessageTokens y) ≤ a ∧ c + 2 ≤ mm
    · rw [if_pos hc]
      have ih := pairWalk_length a mm rest (c + 2)
        (u + (estimateMessageTokens x + estimateMessageTokens y))
      simp only [List.length_append, List.length_cons, List.length_nil]
      push_cast
      push_cast at ih
      omega
    · rw [if_neg hc]
      simp

/-- The pair walk never pushes the running token count past the budget
(relative to its starting count). -/
theorem pairWalk_used (a mm : Int) :
    ∀ (l : List OpenRouterMessage) (c u : Int), (pairWalk a mm l c u).2.1 ≤ max a u
  | [], _, _ => by simp [pairWalk]
  | [_], _, _ => by simp [pairWalk]
  | x :: y :: rest, c, u => by
    rw [pairWalk]
    by_cases hc : u + (estimateMessageTokens x + estimateMessageTokens y) ≤ a ∧ c + 2 ≤ mm
    · rw [if_pos hc]
      have ih := pairWalk_used a mm rest (c + 2)
        (u + (estimateMessageTokens x + estimateMessageTokens y))
      simp only []
      omega
    · rw [if_neg hc]
      simp

/-- Reduction of `buildContext` on a non-empty history, phrased through the
reversed history's head and tail. -/
theorem buildContext_reverse_cons (messages : List OpenRouterMessage) (systemPrompt : String)
    (limits : TokenLimits) (m : OpenRouterMessage) (rest : List OpenRouterMessage)
    (hrev : messages.reverse = m :: rest) :
    buildContext messages systemPrompt limits =
      (let systemMessage : OpenRouterMessage := { role := Role.system, content := systemPrompt }
       let systemTokens := estimateMessageTokens systemMessage
       let availableTokens := limits.maxTokens - limits.reserveTokens - systemTokens
       let start : List OpenRouterMessage × Int × Bool :=
         if m.role = Role.user then
           if estimateMessageTokens m ≤ availableTokens then
             ([m], estimateMessageTokens m, false)
           else
             ([{ m with content := truncateText m.content (availableTokens - 10) }],
               (estimateTokens (truncateText m.content (availableTokens - 10)) : Int) + 10, true)
         else ([], 0, false)
       let walk := pairWalk availableTokens limits.maxMessages rest (start.1.length : Int) start.2.1
       { messages := systemMessage :: (walk.1 ++ start.1)
         totalTokens := systemTokens + walk.2.1
         truncated := start.2.2 || walk.2.2 }) := by
  have hne : ¬(messages.length = 0) := by
    rw [← List.length_reverse, hrev]
    simp
  unfold buildContext
  rw [if_neg hne, hrev]
  simp only [List.head?_cons, List.drop_succ_cons, List.drop_zero]

/-- Claim C10: when the most recent message has role `assistant`, it is
never included in the output of `buildContext` — the always-include branch
applies only to role `user`, and the pair walk starts at the second most
recent message, so the selected history is a sublist of the history minus
its last message; and dropping this message does not, by itself, set the
`truncated` flag (with nothing further for the walk to reject, the flag is
false). -/
theorem C10_latest_assistant_dropped (messages : List OpenRouterMessage) (systemPrompt : String)
    (limits : TokenLimits) (m : OpenRouterMessage) (rest : List OpenRouterMessage)
    (hrev : messages.reverse = m :: rest) (hrole : m.role = Role.assistant) :
    ∃ sel, (buildContext messages systemPrompt limits).messages
        = { role := Role.system, content := systemPrompt } :: sel
      ∧ sel.Sublist messages.dropLast
      ∧ (messages.dropLast = [] → (buildContext messages systemPrompt limits).truncated = false) := by
  have hmsg : messages = rest.reverse ++ [m] := by
    rw [← List.reverse_reverse messages, hrev]
    simp
  have hdl : messages.dropLast = rest.reverse := by
    rw [hmsg, List.dropLast_concat]
  have hnu : ¬(m.role = Role.user) := by
    rw [hrole]
    intro h
    exact Role.noConfusion h
  rw [buildContext_reverse_cons messages systemPrompt limits m rest hrev]
  simp only [if_neg hnu, List.length_nil, List.append_nil]
  refine ⟨_, rfl, ?_, ?_⟩
  · rw [hdl]
    exact pairWalk_sublist _ _ rest _ _
  · intro h
    rw [hdl] at h
    have : rest = [] := by
      have := congrArg List.reverse h
      simpa using this
    subst this
    rfl

/-- Counterexample for C5: with `maxMessages = 1`, the output of
`buildContext` (system message included) has 2 messages — the
always-included latest user message is admitted without a `maxMessages`
check, and the system message is not counted against the limit. -/
theorem C5_maxMessages_counterexample :
    ¬(((buildContext [{ role := Role.user, content := "hi" }] "s"
          { maxTokens := 8000, maxMessages := 1, reserveTokens := 1500 }).messages.length : Int)
        ≤ ({ maxTokens := 8000, maxMessages := 1, reserveTokens := 1500 } : TokenLimits).maxMessages) := by
  decide

/-- Claim C5 amended: the output of `buildContext` has at most
`maxMessages + 1` messages (system message included; the `+ 1` is forced
because the always-included latest user message skips the `maxMessages`
check and the system message is never counted), and `totalTokens` stays
within `maxTokens - reserveTokens` whenever that budget is not already
exhausted by the system message alone and the single most recent user
message does not alone overflow it. -/
theorem C5_budget_bounds (messages : List OpenRouterMessage) (systemPrompt : String)
    (limits : TokenLimits) :
    (1 ≤ limits.maxMessages →
      ((buildContext messages systemPrompt limits).messages.length : Int)
        ≤ limits.maxMessages + 1) ∧
    ((0 ≤ limits.maxTokens - limits.reserveTokens
        - estimateMessageTokens { role := Role.system, content := systemPrompt } ∧
      (∀ m, messages.reverse.head? = some m → m.role = Role.user →
        estimateMessageTokens m ≤ limits.maxTokens - limits.reserveTokens
          - estimateMessageTokens { role := Role.system, content := systemPrompt })) →
      (buildContext messages systemPrompt limits).totalTokens
        ≤ limits.maxTokens - limits.reserveTokens) := by
  cases hrev : messages.reverse with
  | nil =>
    have hm : messages = [] := by
      have := congrArg List.reverse hrev
      simpa using this
    subst hm
    have hbc : buildContext [] systemPrompt limits =
        { messages := [{ role := Role.system, content := systemPrompt }]
          totalTokens := estimateMessageTokens { role := Role.system, content := systemPrompt }
          truncated := false } := rfl
    rw [hbc]
    constructor
    · intro h1
      simp only [List.length_cons, List.length_nil]
      omega
    · intro h
      dsimp only
      omega
  | cons m rest =>
    rw [buildContext_reverse_cons messages systemPrompt limits m rest hrev]
    dsimp only
    constructor
    · intro h1
      by_cases hu : m.role = Role.user
      · rw [if_pos hu]
        by_cases hfit : estimateMessageTokens m
            ≤ limits.maxTokens - limits.reserveTokens
              - estimateMessageTokens { role := Role.system, content := systemPrompt }
        · rw [if_pos hfit]
          have hw := pairWalk_length
            (limits.maxTokens - limits.reserveTokens
              - estimateMessageTokens { role := Role.system, content := systemPrompt })
            limits.maxMessages rest 1 (estimateMessageTokens m)
          simp only [List.length_cons, List.length_nil, List.length_append, Nat.cast_one] at hw ⊢
          push_cast
          omega
        · rw [if_neg hfit]
          have hw := pairWalk_length
            (limits.maxTokens - limits.reserveTokens
              - estimateMessageTokens { role := Role.system, content := systemPrompt })
            limits.maxMessages rest 1
            ((estimateTokens (truncateText m.content
              (limits.maxTokens - limits.reserveTokens
                - estimateMessageTokens { role := Role.system, content := systemPrompt } - 10)) : Int) + 10)
          simp only [List.length_cons, List.length_nil, List.length_append, Nat.cast_one] at hw ⊢
          push_cast
          omega
      · rw [if_neg hu]
        have hw := pairWalk_length
          (limits.maxTokens - limits.reserveTokens
            - estimateMessageTokens { role := Role.system, content := systemPrompt })
          limits.maxMessages rest 0 0
        simp only [List.length_cons, List.length_nil, List.length_append, Nat.cast_zero] at hw ⊢
        push_cast
        omega
    · intro h
      obtain ⟨h0, hover⟩ := h
      by_cases hu : m.role = Role.user
      · have hm : estimateMessageTokens m
            ≤ limits.maxTokens - limits.reserveTokens
              - estimateMessageTokens { role := Role.system, content := systemPrompt } := by
          exact hover m rfl hu
        rw [if_pos hu, if_pos hm]
        dsimp only
        simp only [List.length_cons, List.length_nil, zero_add, Nat.cast_one]
        have hw := pairWalk_used
          (limits.maxTokens - limits.reserveTokens
            - estimateMessageTokens { role := Role.system, content := systemPrompt })
          limits.maxMessages rest 1 (estimateMessageTokens m)
        rw [max_eq_left hm] at hw
        omega
      · rw [if_neg hu]
        dsimp only
        simp only [List.length_nil, Nat.cast_zero]
        have hw := pairWalk_used
          (limits.maxTokens - limits.reserveTokens
            - estimateMessageTokens { role := Role.system, content := systemPrompt })
          limits.maxMessages rest 0 0
        rw [max_eq_left h0] at hw
        omega

/-- Witness for the amended C5 at a concrete input (empty history, default
limits). -/
theorem C5_budget_bounds_witness :
    (((buildContext [] "s" DEFAULT_LIMITS).messages.length : Int)
        ≤ DEFAULT_LIMITS.maxMessages + 1) ∧
    ((buildContext [] "s" DEFAULT_LIMITS).totalTokens
        ≤ DEFAULT_LIMITS.maxTokens - DEFAULT_LIMITS.reserveTokens) :=
  ⟨(C5_budget_bounds [] "s" DEFAULT_LIMITS).1 (by norm_num [DEFAULT_LIMITS]),
   (C5_budget_bounds [] "s" DEFAULT_LIMITS).2
     ⟨by norm_num [DEFAULT_LIMITS, estimateMessageTokens, estimateTokens, jsLen],
      by intro m hm; simp at hm⟩⟩

/-- Witness for C10 at a concrete one-message history whose only (hence
most recent) message is an assistant message. -/
theorem C10_latest_assistant_dropped_witness :
    ∃ sel, (buildContext [{ role := Role.assistant, content := "x" }] "s" DEFAULT_LIMITS).messages
        = { role := Role.system, content := "s" } :: sel
      ∧ sel.Sublist ([{ role := Role.assistant, content := "x" }] :
          List OpenRouterMessage).dropLast
      ∧ (([{ role := Role.assistant, content := "x" }] :
            List OpenRouterMessage).dropLast = [] →
          (buildContext [{ role := Role.assistant, content := "x" }] "s"
            DEFAULT_LIMITS).truncated = false) :=
  C10_latest_assistant_dropped [{ role := Role.assistant, content := "x" }] "s" DEFAULT_LIMITS
    { role := Role.assistant, content := "x" } [] rfl rfl

/-- In the branch where `truncateText` actually truncates, the result ends
with the appended ellipsis. -/
theorem truncateText_ellipsis (text : String) (k : Int)
    (h : k * 4 < (jsLen text : Int)) :
    ∃ s, truncateText text k = s ++ "..." := by
  unfold truncateText
  rw [if_neg (by omega)]
  dsimp only
  split
  · exact ⟨_, rfl⟩
  · exact ⟨_, rfl⟩

/-- Claim C4: the most recent message, when its role is `user`, is always
included in the output of `buildContext` (as the last output message); and
when it alone exceeds `availableTokens = maxTokens - reserveTokens -
estimate(systemMessage)`, the included copy carries
`truncateText(content, availableTokens - 10)` — which cuts at the last
word boundary when that boundary lies past 80% of the character budget and
hard-cuts otherwise, and appends an ellipsis — and the `truncated` flag is
set. -/
theorem C4_latest_user_included (messages : List OpenRouterMessage)
    (systemPrompt : String) (limits : TokenLimits) (m : OpenRouterMessage)
    (rest : List OpenRouterMessage) (hrev : messages.reverse = m :: rest)
    (hrole : m.role = Role.user) :
    (estimateMessageTokens m
        ≤ limits.maxTokens - limits.reserveTokens
          - estimateMessageTokens { role := Role.system, content := systemPrompt } →
      ∃ pre, (buildContext messages systemPrompt limits).messages
          = { role := Role.system, content := systemPrompt } :: (pre ++ [m])) ∧
    (limits.maxTokens - limits.reserveTokens
        - estimateMessageTokens { role := Role.system, content := systemPrompt }
        < estimateMessageTokens m →
      (∃ pre, (buildContext messages systemPrompt limits).messages
          = { role := Role.system, content := systemPrompt }
            :: (pre ++ [{ m with content := (truncateText m.content
                  (limits.maxTokens - limits.reserveTokens
                    - estimateMessageTokens { role := Role.system, content := systemPrompt }
                    - 10)) }]))
        ∧ (buildContext messages systemPrompt limits).truncated = true
        ∧ ∃ s, truncateText m.content
            (limits.maxTokens - limits.reserveTokens
              - estimateMessageTokens { role := Role.system, content := systemPrompt } - 10)
            = s ++ "...") := by
  rw [buildContext_reverse_cons messages systemPrompt limits m rest hrev]
  dsimp only
  rw [if_pos hrole]
  constructor
  · intro hfit
    rw [if_pos hfit]
    exact ⟨_, rfl⟩
  · intro hover
    rw [if_neg (by omega)]
    refine ⟨⟨_, rfl⟩, rfl, ?_⟩
    apply truncateText_ellipsis
    have h2 : (((jsLen m.content + 3) / 4 : Nat) : Int) + 10 = estimateMessageTokens m := rfl
    omega

set_option maxRecDepth 8000 in
/-- Witness for C4 at a concrete overflowing latest user message. -/
theorem C4_latest_user_included_witness :
    (c4limits.maxTokens - c4limits.reserveTokens
        - estimateMessageTokens { role := Role.system, content := "sys" }
      < estimateMessageTokens c4msg) ∧
    ((∃ pre, (buildContext [c4msg] "sys" c4limits).messages
        = { role := Role.system, content := "sys" }
          :: (pre ++ [{ c4msg with content := (truncateText c4msg.content
                (c4limits.maxTokens - c4limits.reserveTokens
                  - estimateMessageTokens { role := Role.system, content := "sys" } - 10)) }]))
      ∧ (buildContext [c4msg] "sys" c4limits).truncated = true
      ∧ ∃ s, truncateText c4msg.content
          (c4limits.maxTokens - c4limits.reserveTokens
            - estimateMessageTokens { role := Role.system, content := "sys" } - 10)
          = s ++ "...") :=
  ⟨by decide,
    (C4_latest_user_included [c4msg] "sys" c4limits c4msg [] rfl rfl).2 (by decide)⟩

end ProjectGPT.ContextManager

namespace ProjectGPT.FolderRAG

/-! ## Claims about RAG context accumulation -/

/-- The string `buildContextForQuery` accumulates is the concatenation of
the blocks of the pairs `ragSelect` records. -/
theorem ragLoop_eq_join_ragSelect (maxT : Int) :
    ∀ (l : List (FolderChunk × ℝ)) (tot : Int),
      ragLoop maxT l tot = joinAll ((ragSelect maxT l tot).map (fun p => chunkBlock p.1))
  | [], _ => rfl
  | p :: rest, tot => by
    rw [ragLoop, ragSelect]
    by_cases hb : maxT < tot + (p.1.tokenCount : Int)
    · rw [if_pos hb, if_pos hb]
      rfl
    · rw [if_neg hb, if_neg hb]
      by_cases hs : (7 : ℝ) / 10 < p.2
      · rw [if_pos hs, if_pos hs, List.map_cons, joinAll,
          ragLoop_eq_join_ragSelect maxT rest (tot + (p.1.tokenCount : Int))]
      · rw [if_neg hs, if_neg hs]
        exact ragLoop_eq_join_ragSelect maxT rest tot

/-- Every pair `ragSelect` keeps passed the hard-coded 0.7 similarity
bar. -/
theorem ragSelect_sim (maxT : Int) :
    ∀ (l : List (FolderChunk × ℝ)) (tot : Int) (p : FolderChunk × ℝ),
      p ∈ ragSelect maxT l tot → (7 : ℝ) / 10 < p.2
  | [], _, p => by
    intro hp
    simp [ragSelect] at hp
  | q :: rest, tot, p => by
    rw [ragSelect]
    by_cases hb : maxT < tot + (q.1.tokenCount : Int)
    · rw [if_pos hb]
      intro hp
      simp at hp
    · rw [if_neg hb]
      by_cases hs : (7 : ℝ) / 10 < q.2
      · rw [if_pos hs]
        intro hp
        rcases List.mem_cons.mp hp with h | h
        · subst h
          exact hs
        · exact ragSelect_sim maxT rest _ p h
      · rw [if_neg hs]
        exact ragSelect_sim maxT rest tot p

/-- `ragSelect` keeps a subsequence of the ranked input (so the
descending-similarity order of the search results is preserved). -/
theorem ragSelect_sublist (maxT : Int) :
    ∀ (l : List (FolderChunk × ℝ)) (tot : Int), (ragSelect maxT l tot).Sublist l
  | [], _ => by simp [ragSelect]
  | q :: rest, tot => by
    rw [ragSelect]
    by_cases hb : maxT < tot + (q.1.tokenCount : Int)
    · rw [if_pos hb]
      exact List.nil_sublist _
    · rw [if_neg hb]
      by_cases hs : (7 : ℝ) / 10 < q.2
      · rw [if_pos hs]
        exact (ragSelect_sublist maxT rest _).cons₂ _
      · rw [if_neg hs]
        exact (ragSelect_sublist maxT rest tot).cons _

/-- The accumulated token counts of the selected chunks never exceed the
budget (unless nothing is selected at all). -/
theorem ragSelect_budget (maxT : Int) :
    ∀ (l : List (FolderChunk × ℝ)) (tot : Int),
      tot + ((ragSelect maxT l tot).map (fun p => (p.1.tokenCount : Int))).sum ≤ maxT
        ∨ ragSelect maxT l tot = []
  | [], tot => by
    right
    rfl
  | q :: rest, tot => by
    rw [ragSelect]
    by_cases hb : maxT < tot + (q.1.tokenCount : Int)
    · rw [if_pos hb]
      right
      rfl
    · rw [if_neg hb]
      by_cases hs : (7 : ℝ) / 10 < q.2
      · rw [if_pos hs]
        left
        rcases ragSelect_budget maxT rest (tot + (q.1.tokenCount : Int)) with h | h
        · simp only [List.map_cons, List.sum_cons]
          omega
        · rw [h]
          simp only [List.map_nil, List.sum_nil, List.map_cons, List.sum_cons, List.map_nil,
            List.sum_nil]
          omega
      · rw [if_neg hs]
        rcases ragSelect_budget maxT rest tot with h | h
        · left
          exact h
        · rw [h]
          right
          rfl

end ProjectGPT.FolderRAG

namespace ProjectGPT.FolderContext

open ProjectGPT.FolderRAG

/-- Claim C6 amended: when RAG is enabled, the retrieved context
accumulates ranked chunks in descending-similarity order (the selection is
a subsequence of the ranked search results), stops as soon as the next
chunk's `tokenCount` would push the total past `maxRAGTokens`, and excludes
every chunk whose similarity is not strictly above the HARD-CODED 0.7 —
the folder's configured `similarityThreshold` is accepted but ignored
(`buildRAGContext` never forwards it), so retrieval is identical for every
configured threshold. -/
theorem C6_rag_selection (state : StoreState) (folderId : Int) (userId : String)
    (queryEmbedding : List ℝ) (maxTokens : Int) (t1 t2 : ℝ) :
    buildRAGContext state folderId userId queryEmbedding maxTokens t1
      = buildRAGContext state folderId userId queryEmbedding maxTokens t2 ∧
    buildContextForQuery state folderId userId queryEmbedding maxTokens
      = jsTrim (joinAll ((ragSelect maxTokens
          (searchSimilarContent state folderId userId queryEmbedding 10) 0).map
            (fun p => chunkBlock p.1))) ∧
    (∀ p ∈ ragSelect maxTokens
        (searchSimilarContent state folderId userId queryEmbedding 10) 0,
      (7 : ℝ) / 10 < p.2) ∧
    (ragSelect maxTokens
        (searchSimilarContent state folderId userId queryEmbedding 10) 0).Sublist
      (searchSimilarContent state folderId userId queryEmbedding 10) ∧
    (((ragSelect maxTokens
          (searchSimilarContent state folderId userId queryEmbedding 10) 0).map
        (fun p => (p.1.tokenCount : Int))).sum ≤ maxTokens
      ∨ ragSelect maxTokens
          (searchSimilarContent state folderId userId queryEmbedding 10) 0 = []) := by
  refine ⟨rfl, ?_, ?_, ?_, ?_⟩
  · unfold buildContextForQuery
    rw [ragLoop_eq_join_ragSelect]
  · intro p hp
    exact ragSelect_sim maxTokens _ 0 p hp
  · exact ragSelect_sublist maxTokens _ 0
  · have h := ragSelect_budget maxTokens
      (searchSimilarContent state folderId userId queryEmbedding 10) 0
    rcases h with h | h
    · left
      omega
    · right
      exact h

theorem c6_sim : cosineSimilarity [1, 0] [(4 : ℝ)/5, 3/5] = 4/5 := by
  unfold cosineSimilarity dotProduct magnitude
  simp only [List.zipWith, List.map, List.sum_cons, List.sum_nil]
  rw [show ((4 : ℝ)/5 * (4/5) + ((3 : ℝ)/5 * (3/5) + 0)) = 1 by norm_num,
    show ((1 : ℝ) * 1 + (0 * 0 + 0)) = 1 by norm_num, Real.sqrt_one]
  norm_num

theorem c6_search : searchSimilarContent c6state 1 "u" [1, 0] 10 = [(c6chunk, (4 : ℝ)/5)] := by
  unfold searchSimilarContent getEmbeddings getChunks c6state
  simp only [List.filter, List.map, c6_sim]
  norm_num [List.insertionSort, List.orderedInsert, jsSlice0, List.find?, List.take,
    List.filterMap, c6chunk]

theorem c6_select :
    ragSelect 2000 (searchSimilarContent c6state 1 "u" [1, 0] 10) 0
      = [(c6chunk, (4 : ℝ)/5)] := by
  rw [c6_search, ragSelect]
  rw [if_neg (by norm_num [c6chunk]), if_pos (by norm_num)]
  rfl

/-- Counterexample for C6: folder 1's configured `similarityThreshold` is
0.9, yet the chunk with similarity 0.8 — below that configured threshold —
is selected and its content appears in the RAG context string: the
configured threshold is never forwarded, `buildContextForQuery` hard-codes
0.7. -/
theorem C6_counterexample :
    (getFolderConfig c6configs 1).ragSimilarityThreshold = (9 : ℝ)/10 ∧
    cosineSimilarity [1, 0] [(4 : ℝ)/5, 3/5] < (9 : ℝ)/10 ∧
    (c6chunk, cosineSimilarity [1, 0] [(4 : ℝ)/5, 3/5])
        ∈ ragSelect (getFolderConfig c6configs 1).maxRAGTokens
            (searchSimilarContent c6state 1 "u" [1, 0] 10) 0 ∧
    buildRAGContext c6state 1 "u" [1, 0] (getFolderConfig c6configs 1).maxRAGTokens
        (getFolderConfig c6configs 1).ragSimilarityThreshold
      = "\n--- FOLDER CONTEXT (Folder ID: 1) ---\n--- doc ---\nhello\n--- END FOLDER CONTEXT ---\n" := by
  have hcfg : getFolderConfig c6configs 1
      = { includeRAGData := true, maxRAGTokens := 2000, ragSimilarityThreshold := (9 : ℝ)/10
          preserveConversationContext := true, maxConversationTokens := 4000 } := by
    unfold getFolderConfig c6configs
    simp [List.find?]
  refine ⟨by rw [hcfg], ?_, ?_, ?_⟩
  · rw [c6_sim]
    norm_num
  · rw [hcfg, c6_sim]
    rw [c6_select]
    exact List.mem_singleton.mpr rfl
  · rw [hcfg]
    unfold buildRAGContext buildContextForQuery
    rw [ragLoop_eq_join_ragSelect, c6_select]
    simp only [List.map_cons, List.map_nil, joinAll]
    decide

/-- Witness for the amended C6 at the concrete counterexample scope: the
selected pair's similarity is indeed above the hard-coded 0.7, the
selection is within budget, and the context string is the selection's
rendering. -/
theorem C6_rag_selection_witness :
    ((c6chunk, (4 : ℝ)/5)
        ∈ ragSelect 2000 (searchSimilarContent c6state 1 "u" [1, 0] 10) 0 ∧
      (7 : ℝ)/10 < ((c6chunk, (4 : ℝ)/5) : FolderChunk × ℝ).2) ∧
    buildRAGContext c6state 1 "u" [1, 0] 2000 ((1 : ℝ)/2)
      = buildRAGContext c6state 1 "u" [1, 0] 2000 ((9 : ℝ)/10) ∧
    buildContextForQuery c6state 1 "u" [1, 0] 2000
      = jsTrim (joinAll ((ragSelect 2000
          (searchSimilarContent c6state 1 "u" [1, 0] 10) 0).map (fun p => chunkBlock p.1))) := by
  have hmem : ((c6chunk, (4 : ℝ)/5))
      ∈ ragSelect 2000 (searchSimilarContent c6state 1 "u" [1, 0] 10) 0 := by
    rw [c6_select]
    exact List.mem_singleton.mpr rfl
  exact ⟨⟨hmem, (C6_rag_selection c6state 1 "u" [1, 0] 2000 ((1 : ℝ)/2) ((9 : ℝ)/10)).2.2.1
      (c6chunk, (4 : ℝ)/5) hmem⟩,
    (C6_rag_selection c6state 1 "u" [1, 0] 2000 ((1 : ℝ)/2) ((9 : ℝ)/10)).1,
    (C6_rag_selection c6state 1 "u" [1, 0] 2000 ((1 : ℝ)/2) ((9 : ℝ)/10)).2.1⟩

end ProjectGPT.FolderContext

namespace ProjectGPT.FolderRAG

/-! ## Claims about the knowledge graph -/

/-- Two successive `put`s under the same primary key: the first leaves no
trace. -/
theorem putGraph_put_put (l : List FolderKnowledgeGraph) (g1 g2 : FolderKnowledgeGraph)
    (h : g1.id = g2.id) : putGraph (putGraph l g1) g2 = putGraph l g2 := by
  induction l with
  | nil => simp [putGraph, h]
  | cons x t ih =>
    by_cases hx : x.id = g1.id
    · have hx2 : x.id = g2.id := hx.trans h
      simp [putGraph, hx, hx2, h]
    · have hx2 : ¬(x.id = g2.id) := fun hh => hx (hh.trans h.symm)
      simp [putGraph, hx, hx2, ih]

/-- Claim C7 amended: knowledge graphs are REPLACED per folder, not
append-merged — `updateKnowledgeGraph` stores the new document's graph
under the fixed id `folderId + "-graph"` with `put`, so after ingesting
document A and then document B into the same folder, the stored graphs are
exactly what ingesting B alone would have stored; A's document and concept
nodes are gone. -/
theorem C7_graph_replaced (s : StoreState) (dA dB : FolderDocument)
    (chA chB : List FolderChunk) (hf : dA.folderId = dB.folderId) :
    (updateKnowledgeGraph (updateKnowledgeGraph s dA chA) dB chB).graphs
      = (updateKnowledgeGraph s dB chB).graphs := by
  unfold updateKnowledgeGraph storeKnowledgeGraph
  dsimp only
  apply putGraph_put_put
  dsimp only
  rw [hf]

/-- Witness for the amended C7 at concrete documents A and B ingested into
the same scope (folder 1, user "u"). -/
theorem C7_graph_replaced_witness :
    c7docA.folderId = c7docB.folderId ∧
    (updateKnowledgeGraph (updateKnowledgeGraph c7state0 c7docA []) c7docB []).graphs
      = (updateKnowledgeGraph c7state0 c7docB []).graphs :=
  ⟨rfl, C7_graph_replaced c7state0 c7docA c7docB [] [] rfl⟩

/-- Counterexample for C7: after ingesting document A ("A") and then
document B ("B") into scope (folder 1, user "u"), the stored knowledge
graph's node ids are exactly ["B"] — document A's node (and any of its
concept nodes) is NOT in the stored graph, refuting the claimed
append-merge. -/
theorem C7_counterexample :
    ((getKnowledgeGraph
        (updateKnowledgeGraph (updateKnowledgeGraph c7state0 c7docA []) c7docB []) 1 "u").map
      (fun g => g.nodes.map (fun n => n.id))) = some ["B"] := by
  decide

end ProjectGPT.FolderRAG

namespace ProjectGPT

/-! ## Evaluation lemmas for the JavaScript string primitives -/

theorem data_append (s t : String) : (s ++ t).data = s.data ++ t.data := rfl

theorem splitChars_all_not {p : Char → Bool} :
    ∀ {l : List Char}, (∀ c ∈ l, p c = false) → splitChars p l = [l]
  | [], _ => rfl
  | c :: cs, h => by
    rw [splitChars]
    rw [splitChars_all_not (fun x hx => h x (List.mem_cons_of_mem c hx))]
    rw [if_neg (by simp [h c (List.mem_cons_self c cs)])]

theorem splitChars_append_sep {p : Char → Bool} {c : Char} (hc : p c = true) :
    ∀ {l₁ : List Char} (l₂ : List Char), (∀ x ∈ l₁, p x = false) →
      splitChars p (l₁ ++ c :: l₂) = l₁ :: splitChars p l₂
  | [], l₂, _ => by
    rw [List.nil_append, splitChars, if_pos hc]
  | d :: ds, l₂, h => by
    rw [List.cons_append, splitChars,
      splitChars_append_sep hc l₂ (fun x hx => h x (List.mem_cons_of_mem d hx))]
    rw [if_neg (by simp [h d (List.mem_cons_self d ds)])]

theorem dropWhile_of_head {p : Char → Bool} {l : List Char}
    (h : ∀ c, l.head? = some c → p c = false) : l.dropWhile p = l := by
  cases l with
  | nil => rfl
  | cons a as =>
    rw [List.dropWhile_cons, if_neg (by simp [h a rfl])]

theorem jsTrimList_eq_self {l : List Char}
    (h1 : ∀ c, l.head? = some c → c.isWhitespace = false)
    (h2 : ∀ c, l.getLast? = some c → c.isWhitespace = false) :
    jsTrimList l = l := by
  unfold jsTrimList
  rw [dropWhile_of_head h1]
  rw [dropWhile_of_head (by intro c hc; exact h2 c (by rwa [List.head?_reverse] at hc))]
  exact List.reverse_reverse l

theorem jsTrim_eq_self {s : String}
    (h1 : ∀ c, s.data.head? = some c → c.isWhitespace = false)
    (h2 : ∀ c, s.data.getLast? = some c → c.isWhitespace = false) :
    jsTrim s = s := by
  unfold jsTrim
  rw [jsTrimList_eq_self h1 h2]

theorem head?_append_left {α : Type} (l₁ l₂ : List α) (a : α) (h : l₁.head? = some a) :
    (l₁ ++ l₂).head? = some a := by
  cases l₁ with
  | nil => simp at h
  | cons c cs => simpa using h

theorem getLast?_append_right {α : Type} (l₁ l₂ : List α) (a : α) (h : l₂.getLast? = some a) :
    (l₁ ++ l₂).getLast? = some a := by
  rw [← List.head?_reverse] at h ⊢
  rw [List.reverse_append]
  exact head?_append_left _ _ _ h

theorem head?_replicate (a : Char) (n : Nat) (h : n ≠ 0) :
    (List.replicate n a).head? = some a := by
  obtain ⟨m, rfl⟩ := Nat.exists_eq_succ_of_ne_zero h
  rw [List.replicate_succ]
  rfl

theorem getLast?_replicate (a : Char) (n : Nat) (h : n ≠ 0) :
    (List.replicate n a).getLast? = some a := by
  obtain ⟨m, rfl⟩ := Nat.exists_eq_succ_of_ne_zero h
  rw [List.replicate_succ', List.getLast?_concat]

end ProjectGPT

namespace ProjectGPT.FolderRAG

/-! ## Claims about the chunker -/

/-- One emitting step of the chunk loop. -/
theorem chunkLoop_cons_emit (idGen : Nat → String) (document : FolderDocument)
    (sentences : List String) (sentence : String) (rest : List String) (acc : ChunkAcc)
    (hcond : estimateTokens
        (acc.currentChunk ++ (if acc.currentChunk ≠ "" then " " else "") ++ sentence)
      > CHUNK_CONFIG.maxTokens)
    (hne : acc.currentChunk ≠ "") :
    chunkLoop idGen document sentences (sentence :: rest) acc
      = chunkLoop idGen document sentences rest
          { currentChunk :=
              jsJoin " " (sentences.drop (sentences.length - CHUNK_CONFIG.overlap)) ++ " "
                ++ sentence
            chunkIndex := acc.chunkIndex + 1
            startOffset :=
              (mkChunk idGen document acc.currentChunk acc.startOffset acc.chunkIndex).endOffset
                - (jsLen (jsJoin " "
                    (sentences.drop (sentences.length - CHUNK_CONFIG.overlap))) : Int)
            chunks := acc.chunks
              ++ [mkChunk idGen document acc.currentChunk acc.startOffset acc.chunkIndex] } := by
  rw [chunkLoop]
  rw [if_pos ⟨hcond, hne⟩]

/-- One accumulating (non-emitting) step of the chunk loop. -/
theorem chunkLoop_cons_skip (idGen : Nat → String) (document : FolderDocument)
    (sentences : List String) (sentence : String) (rest : List String) (acc : ChunkAcc)
    (hcond : ¬(estimateTokens
        (acc.currentChunk ++ (if acc.currentChunk ≠ "" then " " else "") ++ sentence)
      > CHUNK_CONFIG.maxTokens ∧ acc.currentChunk ≠ "")) :
    chunkLoop idGen document sentences (sentence :: rest) acc
      = chunkLoop idGen document sentences rest
          { acc with currentChunk :=
              acc.currentChunk ++ (if acc.currentChunk ≠ "" then " " else "") ++ sentence } := by
  rw [chunkLoop]
  rw [if_neg hcond]

/-- Claim C3 amended: reconstruction-by-concatenation holds only in the
degenerate single-chunk case — a document that splits into the single
sentence equal to its content, within the token bounds, yields exactly one
chunk whose content is the trimmed document content.  In general
concatenating chunks does not reconstruct the document: the sentence split
discards the terminal punctuation, an under-sized tail is dropped
entirely, and the overlap seed duplicates text drawn from the document's
tail (see the counterexample, where a non-empty document yields no chunks
at all). -/
theorem C3_single_sentence_roundtrip (idGen : Nat → String) (document : FolderDocument)
    (hsent : splitIntoSentences document.content = [document.content])
    (hmax : ¬(estimateTokens document.content > CHUNK_CONFIG.maxTokens))
    (hne : jsTrim document.content ≠ "")
    (hmin : estimateTokens document.content ≥ CHUNK_CONFIG.minChunkSize) :
    (chunkDocument idGen document).map (fun c => c.content) = [jsTrim document.content] := by
  have hpot : ("" ++ (if ("" : String) ≠ "" then " " else "") ++ document.content)
      = document.content := by
    rw [if_neg (by simp)]
    rfl
  unfold chunkDocument
  rw [hsent]
  dsimp only
  rw [chunkLoop_cons_skip idGen document [document.content] document.content [] _
    (fun h => h.2 rfl)]
  dsimp only
  rw [hpot]
  rw [chunkLoop]
  dsimp only
  rw [if_pos ⟨hne, hmin⟩]
  rfl

/-- Counterexample for C3: the non-empty document "Hi there. Bye." yields
NO chunks at all (both sentences together estimate below `minChunkSize`,
so the trailing buffer is dropped), hence no concatenation of chunks —
with or without overlap removal — reconstructs the content. -/
theorem C3_counterexample :
    chunkDocument (fun _ => "") c3doc = [] ∧ c3doc.content ≠ "" := by
  decide

set_option maxRecDepth 4000 in
/-- Witness for the amended C3 at a concrete single-sentence document of
400 characters. -/
theorem C3_single_sentence_roundtrip_witness :
    (splitIntoSentences c3witnessDoc.content = [c3witnessDoc.content] ∧
      ¬(estimateTokens c3witnessDoc.content > CHUNK_CONFIG.maxTokens) ∧
      jsTrim c3witnessDoc.content ≠ "" ∧
      estimateTokens c3witnessDoc.content ≥ CHUNK_CONFIG.minChunkSize) ∧
    (chunkDocument (fun _ => "u") c3witnessDoc).map (fun c => c.content)
      = [jsTrim c3witnessDoc.content] :=
  ⟨⟨by decide, by decide, by decide, by decide⟩,
    C3_single_sentence_roundtrip (fun _ => "u") c3witnessDoc
      (by decide) (by decide) (by decide) (by decide)⟩

end ProjectGPT.FolderRAG

namespace ProjectGPT

theorem getLast?_cons_of_ne {α : Type} (c : α) (l : List α) (a : α)
    (h : l.getLast? = some a) : (c :: l).getLast? = some a := by
  rw [← List.head?_reverse] at h ⊢
  rw [List.reverse_cons]
  exact head?_append_left _ _ _ h

end ProjectGPT

namespace ProjectGPT.FolderRAG

theorem bugA_data : bugA.data = List.replicate 1025 'a' := rfl

theorem bugB_data : bugB.data = List.replicate 1025 'b' := rfl

theorem bugA_trim : jsTrim bugA = bugA := by
  apply jsTrim_eq_self
  · intro c hc
    rw [bugA_data, head?_replicate 'a' 1025 (by norm_num)] at hc
    rw [← Option.some.inj hc]
    rfl
  · intro c hc
    rw [bugA_data, getLast?_replicate 'a' 1025 (by norm_num)] at hc
    rw [← Option.some.inj hc]
    rfl

theorem bugB_trim : jsTrim bugB = bugB := by
  apply jsTrim_eq_self
  · intro c hc
    rw [bugB_data, head?_replicate 'b' 1025 (by norm_num)] at hc
    rw [← Option.some.inj hc]
    rfl
  · intro c hc
    rw [bugB_data, getLast?_replicate 'b' 1025 (by norm_num)] at hc
    rw [← Option.some.inj hc]
    rfl

theorem bugA_len : jsLen bugA = 1025 := by
  show bugA.data.length = 1025
  rw [bugA_data, List.length_replicate]

theorem bugB_len : jsLen bugB = 1025 := by
  show bugB.data.length = 1025
  rw [bugB_data, List.length_replicate]

theorem bugA_ne : bugA ≠ "" := by
  intro h
  have h2 : jsLen bugA = 0 := by
    rw [h]
    rfl
  rw [bugA_len] at h2
  exact absurd h2 (by norm_num)

theorem bug_sentences : splitIntoSentences bugDoc.content = [bugA, bugB] := by
  have hdata : bugDoc.content.data
      = List.replicate 1025 'a' ++ '.' :: List.replicate 1025 'b' := by
    show ((bugA ++ ".") ++ bugB).data = _
    rw [data_append, data_append, List.append_assoc]
    rfl
  have hTA : jsLen (jsTrim bugA) = 1025 := by
    rw [bugA_trim, bugA_len]
  have hTB : jsLen (jsTrim bugB) = 1025 := by
    rw [bugB_trim, bugB_len]
  unfold splitIntoSentences jsSplit
  rw [hdata]
  rw [splitChars_append_sep rfl _ (by
    intro x hx
    rw [List.eq_of_mem_replicate hx]
    rfl)]
  rw [splitChars_all_not (by
    intro x hx
    rw [List.eq_of_mem_replicate hx]
    rfl)]
  rw [List.map_cons, List.map_cons, List.map_nil]
  show List.filter _ [bugA, bugB] = [bugA, bugB]
  rw [List.filter_cons, List.filter_cons, List.filter_nil]
  rw [if_pos (by rw [decide_eq_true_eq, hTA]; norm_num)]
  rw [if_pos (by rw [decide_eq_true_eq, hTB]; norm_num)]

theorem bug_len_AB : jsLen (bugA ++ " " ++ bugB) = 2051 := by
  show ((bugA ++ " ") ++ bugB).data.length = 2051
  rw [data_append, data_append, bugA_data, bugB_data]
  simp only [List.length_append, List.length_replicate]
  decide

theorem bug_cur_data :
    (bugA ++ " " ++ bugB ++ " " ++ bugB).data
      = List.replicate 1025 'a'
          ++ ' ' :: (List.replicate 1025 'b' ++ ' ' :: List.replicate 1025 'b') := by
  show ((((bugA ++ " ") ++ bugB) ++ " ") ++ bugB).data = _
  rw [data_append, data_append, data_append, data_append, bugA_data, bugB_data]
  rw [List.append_assoc, List.append_assoc, List.append_assoc]
  rfl

theorem bug_cur_trim : jsTrim (bugA ++ " " ++ bugB ++ " " ++ bugB)
    = bugA ++ " " ++ bugB ++ " " ++ bugB := by
  apply jsTrim_eq_self
  · intro c hc
    rw [bug_cur_data] at hc
    rw [head?_append_left (List.replicate 1025 'a') _ 'a'
      (head?_replicate 'a' 1025 (by norm_num))] at hc
    rw [← Option.some.inj hc]
    rfl
  · intro c hc
    rw [bug_cur_data] at hc
    have h1 : (List.replicate 1025 'b').getLast? = some 'b' :=
      getLast?_replicate 'b' 1025 (by norm_num)
    have h2 := getLast?_cons_of_ne ' ' _ _ h1
    have h3 := getLast?_append_right (List.replicate 1025 'b') _ _ h2
    have h4 := getLast?_cons_of_ne ' ' _ _ h3
    have h5 := getLast?_append_right (List.replicate 1025 'a') _ _ h4
    rw [h5] at hc
    rw [← Option.some.inj hc]
    rfl

theorem bug_len_cur : jsLen (bugA ++ " " ++ bugB ++ " " ++ bugB) = 3077 := by
  show (bugA ++ " " ++ bugB ++ " " ++ bugB).data.length = 3077
  rw [bug_cur_data]
  simp only [List.length_append, List.length_cons, List.length_replicate]

theorem bug_cur_ne : bugA ++ " " ++ bugB ++ " " ++ bugB ≠ "" := by
  intro h
  have h2 : jsLen (bugA ++ " " ++ bugB ++ " " ++ bugB) = 0 := by
    rw [h]
    rfl
  rw [bug_len_cur] at h2
  exact absurd h2 (by norm_num)

/-- Claim C2 (code bug): on the failing input — two 1025-character
sentences "aaa…a.bbb…b" — the first chunk is the first sentence, but the
second chunk's content is `a…a b…b b…b`: the triggering sentence appears
TWICE, because the overlap seed is `sentences.slice(-50)` over the WHOLE
document's sentence array (here both sentences, including the triggering
one — text that comes after the emitted chunk), not the last 50 sentences
of the just-emitted buffer (which would give `a…a b…b`).  The second
chunk's `startOffset` is also the nonsensical -1026: the offset
arithmetic `chunk.endOffset - overlap.length` assumes the overlap is the
emitted chunk's tail, confirming the slip and violating the spec's
monotonic-offsets invariant. -/
theorem C2_overlap_seed_bug (idGen : Nat → String) :
    (chunkDocument idGen bugDoc).map (fun c => (c.content, c.startOffset))
      = [(bugA, 0), (bugA ++ " " ++ bugB ++ " " ++ bugB, -1026)] := by
  have hpotA : (("" ++ if ("" : String) ≠ "" then " " else "") ++ bugA) = bugA := by
    rw [if_neg (by simp)]
    rfl
  have hestAB : estimateTokens ((bugA ++ if bugA ≠ "" then " " else "") ++ bugB) = 513 := by
    rw [if_pos bugA_ne]
    unfold estimateTokens
    rw [bug_len_AB]
  unfold chunkDocument
  rw [bug_sentences]
  dsimp only
  rw [chunkLoop_cons_skip idGen bugDoc [bugA, bugB] bugA [bugB] _ (fun h => h.2 rfl)]
  dsimp only
  rw [hpotA]
  rw [chunkLoop_cons_emit idGen bugDoc [bugA, bugB] bugB [] _
    (by
      show estimateTokens ((bugA ++ if bugA ≠ "" then " " else "") ++ bugB)
        > CHUNK_CONFIG.maxTokens
      rw [hestAB]
      norm_num [CHUNK_CONFIG])
    bugA_ne]
  rw [chunkLoop]
  rw [show (([bugA, bugB] : List String).drop
      (([bugA, bugB] : List String).length - CHUNK_CONFIG.overlap)) = [bugA, bugB] from rfl]
  rw [show jsJoin " " [bugA, bugB] = bugA ++ " " ++ bugB from rfl]
  dsimp only [mkChunk]
  rw [bugA_trim, bugA_len, bug_len_AB]
  rw [if_pos ⟨by rw [bug_cur_trim]; exact bug_cur_ne,
    by
      show estimateTokens (bugA ++ " " ++ bugB ++ " " ++ bugB) ≥ CHUNK_CONFIG.minChunkSize
      unfold estimateTokens
      rw [bug_len_cur]
      norm_num [CHUNK_CONFIG]⟩]
  rw [bug_cur_trim]
  simp only [List.nil_append, List.singleton_append, List.map_cons, List.map_nil]
  norm_num

end ProjectGPT.FolderRAG
